import Mathlib

/-!
Verification of the NFLGPT Monte Carlo game-simulation engine.

The definitions below are a shallow embedding of the JavaScript source files
`src/DDSmontecarlo_w8_robust.js` (discrete per-drive variant, "DDS"),
`src/MonteCarloSimulator_rewrite_FIXED_v2.js` (Gaussian variant, "Fx"),
`src/MonteCarloSimulator_calibrated_v4_DEBUG.js` ("V4"), and the unnamed
Gaussian v3 file (`part_001`).  JavaScript numbers are modelled as exact
rationals; where IEEE special values (NaN, Infinity) matter to a claim they
are modelled explicitly by the `JsNum` type.  The transcendental pieces of
the source (Math.exp inside the sigmoid link, and the Box-Muller transform's
sqrt/log/cos/sin) cannot be represented exactly over computable rationals, so
they are abstracted as function/value parameters of the embedding: every
theorem below quantifies over those parameters, hence holds for the actual
transcendental instances.
-/

/-- Embeds the JavaScript truthiness fallback `x || 0` applied to a number:
it maps 0 to 0 and any other number to itself, i.e. it is the identity on
rationals (it only matters for NaN/undefined, which do not occur at the
call sites where the operand is an already-defaulted numeric field). -/
def orZero (q : ℚ) : ℚ := if q = 0 then 0 else q

/-- Embeds `clamp01` from DDSmontecarlo_w8_robust.js:
`(p) => Math.max(0, Math.min(1, p))`. -/
def clamp01 (p : ℚ) : ℚ := max 0 (min 1 p)

/-- Embeds JavaScript `Math.round` on the (non-negative-result) inputs used
by the source: round half away from zero upward, i.e. `⌊q + 1/2⌋`. -/
def jsRound (q : ℚ) : ℤ := ⌊q + 1 / 2⌋

/-- Team-statistics record.  Only the fields actually read by the embedded
functions (`computePace`, `computeGamePace`, `estimateScore`, `driveProbs`)
are modelled; the remaining CSV-derived fields are never consumed by the
code under verification. -/
structure TeamRec where
  off_drives : ℚ
  def_drives : ℚ
  no_huddle : ℚ
  ed_pass : ℚ
  off_dvoa : ℚ
  def_dvoa : ℚ
  off_to_epa : ℚ
  off_fp : ℚ
  def_3out : ℚ

/-- A league-average team: every modelled field at its documented default
(off_drives 12, def_drives 12, no_huddle 0.02, ed_pass 0.5, DVOA 0,
turnover EPA 0, field position 25, defensive three-and-out 0.24). -/
def avgTeam : TeamRec :=
  { off_drives := 12, def_drives := 12, no_huddle := 2/100, ed_pass := 1/2
  , off_dvoa := 0, def_dvoa := 0, off_to_epa := 0, off_fp := 25
  , def_3out := 24/100 }

/-- Matchup nets as produced by `buildNets` in DDSmontecarlo_w8_robust.js. -/
structure DNets where
  EPA_net : ℚ
  SR_net : ℚ
  RZ_net : ℚ
  ThreeOut_eff : ℚ
  PPD_resid : ℚ

/-- The all-zero DDS nets (an evenly matched pairing). -/
def zeroDNets : DNets :=
  { EPA_net := 0, SR_net := 0, RZ_net := 0, ThreeOut_eff := 0, PPD_resid := 0 }

/-- Matchup nets as produced by `computeNetFeatures` in
MonteCarloSimulator_rewrite_FIXED_v2.js. -/
structure GNets where
  epa_net : ℚ
  sr_net : ℚ
  ppd_resid : ℚ
  xpl_net : ℚ
  rz_net : ℚ
  out_net : ℚ
  z_pen_o : ℚ
  z_pen_d : ℚ

/-- The all-zero Gaussian nets. -/
def zeroGNets : GNets :=
  { epa_net := 0, sr_net := 0, ppd_resid := 0, xpl_net := 0, rz_net := 0
  , out_net := 0, z_pen_o := 0, z_pen_d := 0 }

/-- Embeds the pre-adjustment combined game drives of `computePace` in
DDSmontecarlo_w8_robust.js (lines 180-182): the SUM of the two
offense/defense averages
`(home.off_drives + away.def_drives)/2 + (away.off_drives + home.def_drives)/2`. -/
def ddsBaseGameDrives (home away : TeamRec) : ℚ :=
  (home.off_drives + away.def_drives) / 2 + (away.off_drives + home.def_drives) / 2

/-- Embeds `computePace` from DDSmontecarlo_w8_robust.js (lines 178-191),
returning `(gameDrives, posShare)`.  Weights: NoHuddle = 0.20,
Pace_EDPass = 0.10. -/
def computePace (home away : TeamRec) (netsHome : DNets) : ℚ × ℚ :=
  let gameDrives0 := ddsBaseGameDrives home away
  let nh_boost := (orZero home.no_huddle + orZero away.no_huddle) / 2 * (20/100) * (1/2)
  let ed_adj := ((orZero home.ed_pass - 1/2) + (orZero away.ed_pass - 1/2)) / 2 * (10/100)
  let gameDrives1 := gameDrives0 * (1 + nh_boost + ed_adj)
  let gameDrives := max 20 (min 30 gameDrives1)
  let posShare0 := 1/2 + (15/100) * (netsHome.SR_net + (1/2) * netsHome.EPA_net)
  let posShare := max (35/100) (min (65/100) posShare0)
  (gameDrives, posShare)

/-- Embeds the `baseDrives` expression of `computeGamePace` in
MonteCarloSimulator_rewrite_FIXED_v2.js (line 139): note the trailing `/ 2`,
which averages the two per-team averages instead of summing them. -/
def fxBaseDrives (homeTeam awayTeam awayDef homeDef : TeamRec) : ℚ :=
  ((homeTeam.off_drives + awayDef.def_drives) / 2
    + (awayTeam.off_drives + homeDef.def_drives) / 2) / 2

/-- Embeds `computeGamePace` from MonteCarloSimulator_rewrite_FIXED_v2.js
(lines 136-150), returning `(gameDrives, posShare)`; its drive clamp is
`[18, 28]`. -/
def computeGamePace (homeTeam awayTeam awayDef homeDef : TeamRec)
    (netsHome : GNets) : ℚ × ℚ :=
  let baseDrives := fxBaseDrives homeTeam awayTeam awayDef homeDef
  let nh_boost := (orZero homeTeam.no_huddle + orZero awayTeam.no_huddle) / 2 * (20/100) * (1/2)
  let ed_adj := ((orZero homeTeam.ed_pass - 1/2) + (orZero awayTeam.ed_pass - 1/2)) / 2 * (10/100)
  let gameDrives0 := baseDrives * (1 + nh_boost + ed_adj)
  let gameDrives := min 28 (max 18 gameDrives0)
  let posShare0 := 1/2 + (15/100) * (netsHome.sr_net + (1/2) * netsHome.epa_net)
  let posShare := max (35/100) (min (65/100) posShare0)
  (gameDrives, posShare)

/-- Home team of the spec's drives-sum regression scenario: offense 12
drives/game, defense 12.5 drives/game allowed, no pace adjustments. -/
def regHome : TeamRec :=
  { avgTeam with off_drives := 12, def_drives := 25/2, no_huddle := 0, ed_pass := 1/2 }

/-- Away team of the spec's drives-sum regression scenario: offense 11.5
drives/game, defense 11 drives/game allowed, no pace adjustments. -/
def regAway : TeamRec :=
  { avgTeam with off_drives := 23/2, def_drives := 11, no_huddle := 0, ed_pass := 1/2 }

/-- C2: the drives-sum regression.  The DDS pace allocator computes base
combined game drives as the SUM of the two independently averaged per-team
estimates, and on the spec's scenario (home offense 12, away defense
allowed 11, away offense 11.5, home defense allowed 12.5, no pace
adjustments) it yields 23.5 both before clamping and as the final output.
The FIXED_v2 `computeGamePace`, however, divides that sum by two: on the
same scenario its base drives are 11.75 (the exact value the spec calls
incorrect), which its `[18, 28]` clamp then raises to 18. -/
theorem dds_pace_sum_vs_fx_halving :
    (∀ home away : TeamRec, ddsBaseGameDrives home away =
      (home.off_drives + away.def_drives) / 2 + (away.off_drives + home.def_drives) / 2)
    ∧ ddsBaseGameDrives regHome regAway = 47/2
    ∧ (computePace regHome regAway zeroDNets).1 = 47/2
    ∧ fxBaseDrives regHome regAway regAway regHome = 47/4
    ∧ (computeGamePace regHome regAway regAway regHome zeroGNets).1 = 18 := by
  refine ⟨fun home away => rfl, ?_, ?_, ?_, ?_⟩
  · norm_num [ddsBaseGameDrives, regHome, regAway, avgTeam]
  · norm_num [computePace, ddsBaseGameDrives, orZero, zeroDNets, regHome, regAway, avgTeam]
  · norm_num [fxBaseDrives, regHome, regAway, avgTeam]
  · norm_num [computeGamePace, fxBaseDrives, orZero, zeroGNets, regHome, regAway, avgTeam]

/-- C5: for every input (arbitrary team pace metrics and arbitrarily large
nets) the pace allocators' outputs stay inside their configured bands: the
home possession share lies in `[0.35, 0.65]` in both variants, the DDS
combined game drives lie in `[20, 30]`, and the FIXED_v2 combined game
drives lie in its configured `[18, 28]`. -/
theorem pace_outputs_within_bands (home away awayDef homeDef : TeamRec)
    (dnets : DNets) (gnets : GNets) :
    (35/100 ≤ (computePace home away dnets).2 ∧ (computePace home away dnets).2 ≤ 65/100)
    ∧ (20 ≤ (computePace home away dnets).1 ∧ (computePace home away dnets).1 ≤ 30)
    ∧ (35/100 ≤ (computeGamePace home away awayDef homeDef gnets).2
        ∧ (computeGamePace home away awayDef homeDef gnets).2 ≤ 65/100)
    ∧ (18 ≤ (computeGamePace home away awayDef homeDef gnets).1
        ∧ (computeGamePace home away awayDef homeDef gnets).1 ≤ 28) := by
  simp only [computePace, computeGamePace]
  refine ⟨⟨le_max_left _ _, max_le (by norm_num) (min_le_left _ _)⟩,
    ⟨le_max_left _ _, max_le (by norm_num) (min_le_left _ _)⟩,
    ⟨le_max_left _ _, max_le (by norm_num) (min_le_left _ _)⟩,
    ⟨le_min (by norm_num) ?_, min_le_left _ _⟩⟩
  exact le_max_left _ _

/-- Embeds the `net_adv` computation of `estimateScore` in
MonteCarloSimulator_rewrite_FIXED_v2.js (lines 271-285): the weighted sum of
the nets (weights PPD 0.20, EPA 0.40, SR 0.20, Xpl 0.10, RZ 0.10,
ThreeOut_eff 0.25) plus the DVOA, turnover-EPA, field-position and penalty
adjustments (weights DVOA 0.15/0.15, TO_EPA 0.10 over 24 league drives,
FP 0.10, Pen 0.05/0.05). -/
def netAdv (team oppDefense : TeamRec) (nets : GNets) : ℚ :=
  (nets.ppd_resid * (20/100) + nets.epa_net * (40/100) + nets.sr_net * (20/100)
    + nets.xpl_net * (10/100) + nets.rz_net * (10/100) + nets.out_net * (25/100))
  + (team.off_dvoa / 100 * (15/100) - oppDefense.def_dvoa / 100 * (15/100))
  + team.off_to_epa * (10/100) / 24
  + (team.off_fp - 25) / 10 * (10/100)
  + (-nets.z_pen_o * (5/100) + nets.z_pen_d * (5/100))

/-- The pre-HFA, pre-clamp points-per-drive of `estimateScore` in
MonteCarloSimulator_rewrite_FIXED_v2.js (line 291):
`ppd = lg.PPD + net_adv * lg.PPD_sd` with league PPD 2.06 and SD 0.42. -/
def gPpdBase (team oppDefense : TeamRec) (nets : GNets) : ℚ :=
  206/100 + netAdv team oppDefense nets * (42/100)

/-- Embeds `estimateScore` from MonteCarloSimulator_rewrite_FIXED_v2.js
(lines 263-321), returning `(points, std_dev)`.  The home side (and only it,
when `hfa ≠ 0` — the source guards with the truthiness test `if (isHome &&
hfa)`) receives `hfa / max(1, drives)` extra points per drive; the result is
then clamped to `[0.4, 4.0]` and multiplied by the side's drive count.  The
standard deviation starts from the base per-team SD 9, is inflated by
`1 + 0.3*|out_net|`, deflated by `max(0.7, 1 - 0.15*|sr_net|)`, and clamped
to `[6, 13]`. -/
def estimateScore (team oppDefense : TeamRec) (isHome : Bool) (hfa : ℚ)
    (gameDrives posShare : ℚ) (nets : GNets) : ℚ × ℚ :=
  let drives := if isHome then gameDrives * posShare else gameDrives * (1 - posShare)
  let ppd0 := gPpdBase team oppDefense nets
  let ppd1 := if isHome ∧ hfa ≠ 0 then ppd0 + hfa / max 1 drives else ppd0
  let ppd := max (4/10) (min 4 ppd1)
  let pts := ppd * drives
  let var_inflater := 1 + (3/10) * |nets.out_net|
  let var_deflater := 1 - (15/100) * |nets.sr_net|
  let std0 := 9 * var_inflater * max (7/10) var_deflater
  let std_dev := max 6 (min 13 std0)
  (max 0 pts, std_dev)

/-- The home-minus-away expected-margin of the Gaussian variant at a given
HFA value, as assembled by `runSimulation` (FIXED_v2 lines 346-347): home
projection with `isHome = true`, away projection with `isHome = false`, both
sharing the game pace. -/
def gaussianMargin (home away : TeamRec) (hfa gameDrives posShare : ℚ)
    (netsHome netsAway : GNets) : ℚ :=
  (estimateScore home away true hfa gameDrives posShare netsHome).1
    - (estimateScore away home false hfa gameDrives posShare netsAway).1

/-- C1 (amended): the HFA margin invariant holds exactly whenever the home
side has at least one allocated drive and the home points-per-drive — both
without HFA and with the `hfa / drives` increment — stays inside the
`[0.4, 4.0]` clamp band: then the expected margin with HFA minus the
expected margin without HFA equals exactly `hfa`, the away projection being
unaffected.  (When the clamp binds, part or all of the shift is absorbed:
see the counterexample.) -/
theorem hfa_margin_shift_eq_hfa (home away : TeamRec) (hfa gameDrives posShare : ℚ)
    (netsHome netsAway : GNets)
    (hd : 1 ≤ gameDrives * posShare)
    (h1 : 4/10 ≤ gPpdBase home away netsHome)
    (h2 : gPpdBase home away netsHome ≤ 4)
    (h3 : 4/10 ≤ gPpdBase home away netsHome + hfa / (gameDrives * posShare))
    (h4 : gPpdBase home away netsHome + hfa / (gameDrives * posShare) ≤ 4) :
    gaussianMargin home away hfa gameDrives posShare netsHome netsAway
      - gaussianMargin home away 0 gameDrives posShare netsHome netsAway = hfa := by
  have hdpos : (0:ℚ) < gameDrives * posShare := lt_of_lt_of_le one_pos hd
  have hmax : max (1:ℚ) (gameDrives * posShare) = gameDrives * posShare := max_eq_right hd
  have hbase : max (4/10 : ℚ) (min 4 (gPpdBase home away netsHome))
      = gPpdBase home away netsHome := by
    rw [min_eq_right h2, max_eq_right h1]
  have away_eq : estimateScore away home false hfa gameDrives posShare netsAway
      = estimateScore away home false 0 gameDrives posShare netsAway := by
    simp [estimateScore]
  have home_pts0 : (estimateScore home away true 0 gameDrives posShare netsHome).1
      = max 0 (max (4/10) (min 4 (gPpdBase home away netsHome))
          * (gameDrives * posShare)) := by
    simp [estimateScore]
  by_cases hz : hfa = 0
  · subst hz
    simp [gaussianMargin]
  · have home_pts : (estimateScore home away true hfa gameDrives posShare netsHome).1
        = max 0 (max (4/10) (min 4 (gPpdBase home away netsHome
            + hfa / max 1 (gameDrives * posShare))) * (gameDrives * posShare)) := by
      simp [estimateScore, hz]
    have hpts : max (4/10 : ℚ)
        (min 4 (gPpdBase home away netsHome + hfa / (gameDrives * posShare)))
        = gPpdBase home away netsHome + hfa / (gameDrives * posShare) := by
      rw [min_eq_right h4, max_eq_right h3]
    have hb0 : (0:ℚ) ≤ gPpdBase home away netsHome := le_trans (by norm_num) h1
    have hb0h : (0:ℚ) ≤ gPpdBase home away netsHome + hfa / (gameDrives * posShare) :=
      le_trans (by norm_num) h3
    unfold gaussianMargin
    rw [away_eq, home_pts, home_pts0, hmax, hpts, hbase,
      max_eq_right (mul_nonneg hb0h hdpos.le), max_eq_right (mul_nonneg hb0 hdpos.le)]
    field_simp

/-- Witness for C1: two league-average teams, HFA 3, 24 shared drives split
evenly — the HFA hypotheses hold and the margin shift is exactly 3. -/
theorem hfa_margin_shift_eq_hfa_witness :
    gaussianMargin avgTeam avgTeam 3 24 (1/2) zeroGNets zeroGNets
      - gaussianMargin avgTeam avgTeam 0 24 (1/2) zeroGNets zeroGNets = 3 :=
  hfa_margin_shift_eq_hfa avgTeam avgTeam 3 24 (1/2) zeroGNets zeroGNets
    (by norm_num)
    (by norm_num [gPpdBase, netAdv, zeroGNets, avgTeam])
    (by norm_num [gPpdBase, netAdv, zeroGNets, avgTeam])
    (by norm_num [gPpdBase, netAdv, zeroGNets, avgTeam])
    (by norm_num [gPpdBase, netAdv, zeroGNets, avgTeam])

/-- Extreme (but numerically valid) nets: an EPA net of +20 standard
deviations, everything else zero. -/
def extremeGNets : GNets := { zeroGNets with epa_net := 20 }

/-- Counterexample to C1 as stated: with an ordinary HFA of 3 points but an
extreme matchup net (EPA net +20), the home points-per-drive saturates the
`[0.4, 4.0]` clamp both with and without HFA, so the margin shift is 0, not
the configured 3 — the invariant does not hold for every valid input. -/
theorem hfa_margin_shift_clamped_cex :
    gaussianMargin avgTeam avgTeam 3 24 (1/2) extremeGNets extremeGNets
      - gaussianMargin avgTeam avgTeam 0 24 (1/2) extremeGNets extremeGNets = 0
    ∧ (0:ℚ) ≠ 3 := by
  constructor
  · norm_num [gaussianMargin, estimateScore, gPpdBase, netAdv, extremeGNets,
      zeroGNets, avgTeam]
  · norm_num

/-- Per-possession outcome probabilities, as returned by `driveProbs` in
DDSmontecarlo_w8_robust.js. -/
structure DriveProbs where
  p3O : ℚ
  pTD : ℚ
  pFG : ℚ
  pEmpty : ℚ
  pS : ℚ
  pTD_S : ℚ

/-- Embeds `driveProbs` from DDSmontecarlo_w8_robust.js (lines 193-206) with
the Week-8 calibrated logits a0 = -1.31, a1 = 1.10, a2 = 0.85, a3 = 0.60,
a4 = 0.25, b0 = -0.76, b1 = 0.95, b2 = 0.55, b3 = 0.35, b4 = 0.40,
phi = 0.32 and league ThreeOut 0.24.  The logistic link
`sigmoid(x) = 1/(1+Math.exp(-x))` is transcendental, so it is abstracted as
the parameter `sig`; every theorem about `driveProbs` quantifies over `sig`,
hence covers the actual sigmoid. -/
def driveProbs (sig : ℚ → ℚ) (offT defT : TeamRec) (nets : DNets) : DriveProbs :=
  let opp3o_raw := defT.def_3out
  let rz_bad := -nets.RZ_net
  let p3O := clamp01 (sig ((-131/100) - (110/100) * nets.EPA_net
    - (85/100) * nets.SR_net + (60/100) * (opp3o_raw - 24/100) + (25/100) * rz_bad))
  let pTD_S := clamp01 (sig ((-76/100) + (95/100) * nets.EPA_net
    + (55/100) * nets.SR_net + (35/100) * nets.RZ_net + (40/100) * nets.PPD_resid))
  let pS := 1 - p3O
  let pTD := pS * pTD_S
  let pFG := pS * (1 - pTD_S) * max 0 (min 1 (32/100))
  let pEmpty := max 0 (1 - (p3O + pTD + pFG))
  ⟨p3O, pTD, pFG, pEmpty, pS, pTD_S⟩

/-- The adjusted (post-HFA-tilt, renormalized) three-outcome probabilities
used for sampling inside `simulateOne`. -/
structure AdjProbs where
  p3O : ℚ
  pTD : ℚ
  pFG : ℚ

/-- Embeds the home-side HFA tilt and renormalization of `simulateOne` in
DDSmontecarlo_w8_robust.js (lines 216-226): tilt coefficients
`hfaTDk = 0.02 * max(0, hfa)` and `hfa3Ok = 0.01 * max(0, hfa)`, the tilted
three-and-out and touchdown probabilities re-clamped to `[0,1]`, and all
three probabilities scaled by `1/sum` when their sum exceeds 1. -/
def tiltHome (base : DriveProbs) (hfa : ℚ) : AdjProbs :=
  let hfaTDk := (2/100) * max 0 hfa
  let hfa3Ok := (1/100) * max 0 hfa
  let a3O := clamp01 (base.p3O * (1 - hfa3Ok))
  let aTD := clamp01 (base.pTD * (1 + hfaTDk))
  let aFG := base.pFG
  let sumH := a3O + aTD + aFG
  let scaleH := if 1 < sumH then 1 / sumH else 1
  ⟨a3O * scaleH, aTD * scaleH, aFG * scaleH⟩

/-- Embeds the away-side renormalization of `simulateOne` in
DDSmontecarlo_w8_robust.js (lines 228-231): no tilt, but the same
proportional scale-down when the three probabilities sum past 1. -/
def adjAwayOf (base : DriveProbs) : AdjProbs :=
  let sumA := base.p3O + base.pTD + base.pFG
  let scaleA := if 1 < sumA then 1 / sumA else 1
  ⟨base.p3O * scaleA, base.pTD * scaleA, base.pFG * scaleA⟩

/-- Embeds `sampleDrive` from DDSmontecarlo_w8_robust.js (lines 233-239):
classify one uniform draw `r` against the cumulative thresholds
{3&Out ↦ 0, TD ↦ 7, FG ↦ 3, else empty ↦ 0}. -/
def sampleDrive (p : AdjProbs) (r : ℚ) : ℕ :=
  if r < p.p3O then 0
  else if r < p.p3O + p.pTD then 7
  else if r < p.p3O + p.pTD + p.pFG then 3
  else 0

/-- Embeds `simulateOne` from DDSmontecarlo_w8_robust.js (lines 208-254):
drive counts from rounding the possession split, base probabilities from
`driveProbs`, home tilt and away renormalization, then one uniform draw per
possession (home possessions consume the stream first).  The random stream
`rand` abstracts the successive `Math.random()` values; the result carries
the sampled score pair and both adjusted probability records. -/
def simulateOne (sig : ℚ → ℚ) (home away : TeamRec) (netsHome netsAway : DNets)
    (gameDrives posShare hfa : ℚ) (rand : ℕ → ℚ) :
    (ℕ × ℕ) × AdjProbs × AdjProbs :=
  let homeDrives : ℤ := jsRound (gameDrives * posShare)
  let awayDrives : ℤ := jsRound (gameDrives - homeDrives)
  let baseHome := driveProbs sig home away netsHome
  let baseAway := driveProbs sig away home netsAway
  let adjHome := tiltHome baseHome hfa
  let adjAway := adjAwayOf baseAway
  let hn := homeDrives.toNat
  let an := awayDrives.toNat
  let hs := (List.range hn).foldl (fun acc i => acc + sampleDrive adjHome (rand i)) 0
  let asc := (List.range an).foldl (fun acc j => acc + sampleDrive adjAway (rand (hn + j))) 0
  ((hs, asc), adjHome, adjAway)

/-- Embeds the HFA argument of the `run` → `simulateOne` call site in
DDSmontecarlo_w8_robust.js (line 274): `Math.max(0, hfaPoints || 0)`. -/
def ddsEffHfa (hfaPoints : ℚ) : ℚ := max 0 (orZero hfaPoints)

theorem clamp01_nonneg (p : ℚ) : 0 ≤ clamp01 p := le_max_left _ _

theorem clamp01_le_one (p : ℚ) : clamp01 p ≤ 1 := max_le (by norm_num) (min_le_left _ _)

/-- Arithmetic core of the pre-tilt conservation: for `x, y ∈ [0,1]` the
chained-Bernoulli three-outcome mass is in `[0,1]`. -/
theorem sum3_bounds {x y : ℚ} (hx0 : 0 ≤ x) (hx1 : x ≤ 1) (hy0 : 0 ≤ y) (hy1 : y ≤ 1) :
    0 ≤ x + (1 - x) * y + (1 - x) * (1 - y) * max 0 (min 1 (32/100))
    ∧ x + (1 - x) * y + (1 - x) * (1 - y) * max 0 (min 1 (32/100)) ≤ 1 := by
  have hc : max (0:ℚ) (min 1 (32/100)) = 32/100 := by norm_num
  rw [hc]
  constructor
  · have h1 : 0 ≤ (1 - x) * y := mul_nonneg (by linarith) hy0
    have h2 : 0 ≤ (1 - x) * (1 - y) * (32/100) :=
      mul_nonneg (mul_nonneg (by linarith) (by linarith)) (by norm_num)
    linarith
  · nlinarith [mul_nonneg (sub_nonneg.mpr hx1) (sub_nonneg.mpr hy1),
      mul_nonneg (sub_nonneg.mpr hx1) hy0]

theorem driveProbs_pFG_nonneg (sig : ℚ → ℚ) (offT defT : TeamRec) (nets : DNets) :
    0 ≤ (driveProbs sig offT defT nets).pFG := by
  simp only [driveProbs]
  exact mul_nonneg (mul_nonneg (sub_nonneg.mpr (clamp01_le_one _))
    (sub_nonneg.mpr (clamp01_le_one _))) (le_max_left _ _)

theorem driveProbs_pTD_nonneg (sig : ℚ → ℚ) (offT defT : TeamRec) (nets : DNets) :
    0 ≤ (driveProbs sig offT defT nets).pTD := by
  simp only [driveProbs]
  exact mul_nonneg (sub_nonneg.mpr (clamp01_le_one _)) (clamp01_nonneg _)

/-- After scaling three non-negative masses by `1/sum` when their sum
exceeds 1 (and by 1 otherwise), the scaled sum is in `[0, 1]`. -/
theorem renorm_sum_bounds {A B C : ℚ} (hA : 0 ≤ A) (hB : 0 ≤ B) (hC : 0 ≤ C) :
    0 ≤ A * (if 1 < A + B + C then 1 / (A + B + C) else 1)
        + B * (if 1 < A + B + C then 1 / (A + B + C) else 1)
        + C * (if 1 < A + B + C then 1 / (A + B + C) else 1)
    ∧ A * (if 1 < A + B + C then 1 / (A + B + C) else 1)
        + B * (if 1 < A + B + C then 1 / (A + B + C) else 1)
        + C * (if 1 < A + B + C then 1 / (A + B + C) else 1) ≤ 1 := by
  split_ifs with h
  · have hpos : 0 < A + B + C := lt_trans one_pos h
    have hkey : A * (1 / (A + B + C)) + B * (1 / (A + B + C)) + C * (1 / (A + B + C))
        = (A + B + C) / (A + B + C) := by ring
    rw [hkey, div_self hpos.ne']
    norm_num
  · constructor
    · simp only [mul_one]
      linarith
    · simp only [mul_one]
      linarith [not_lt.mp h]

/-- Structural characterization of `driveProbs`: its output is the
chained-Bernoulli vector built from the two clamped link values
`x = p3O` and `y = pTD_S`, both in `[0,1]` (and the clamped FG fraction
`max 0 (min 1 (32/100))` evaluates to `32/100`). -/
theorem driveProbs_eq (sig : ℚ → ℚ) (offT defT : TeamRec) (nets : DNets) :
    ∃ x y : ℚ, (0 ≤ x ∧ x ≤ 1) ∧ (0 ≤ y ∧ y ≤ 1) ∧
      driveProbs sig offT defT nets =
        ⟨x, (1 - x) * y, (1 - x) * (1 - y) * (32/100),
         max 0 (1 - (x + (1 - x) * y + (1 - x) * (1 - y) * (32/100))),
         1 - x, y⟩ := by
  refine ⟨clamp01 (sig ((-131/100) - (110/100) * nets.EPA_net - (85/100) * nets.SR_net
      + (60/100) * (defT.def_3out - 24/100) + (25/100) * (-nets.RZ_net))),
    clamp01 (sig ((-76/100) + (95/100) * nets.EPA_net + (55/100) * nets.SR_net
      + (35/100) * nets.RZ_net + (40/100) * nets.PPD_resid)),
    ⟨clamp01_nonneg _, clamp01_le_one _⟩, ⟨clamp01_nonneg _, clamp01_le_one _⟩, ?_⟩
  simp only [driveProbs]
  norm_num

/-- C4: in the discrete per-drive variant the four per-possession outcome
probabilities conserve mass for every matchup and every sigmoid value:
before the HFA tilt, `p3O + pTD + pFG + pEmpty ∈ [0,1]` with `pEmpty ≥ 0`;
and after the home tilt (any `hfa`) followed by the proportional
renormalization — likewise for the untilted away renormalization — the
residual empty mass `1 - (p3O' + pTD' + pFG')` is non-negative and the four
masses (the three scaled ones plus that residual) again sum into `[0,1]`. -/
theorem drive_outcome_probability_conservation (sig : ℚ → ℚ)
    (offT defT : TeamRec) (nets : DNets) (hfa : ℚ) :
    (0 ≤ (driveProbs sig offT defT nets).pEmpty
      ∧ 0 ≤ (driveProbs sig offT defT nets).p3O + (driveProbs sig offT defT nets).pTD
          + (driveProbs sig offT defT nets).pFG + (driveProbs sig offT defT nets).pEmpty
      ∧ (driveProbs sig offT defT nets).p3O + (driveProbs sig offT defT nets).pTD
          + (driveProbs sig offT defT nets).pFG + (driveProbs sig offT defT nets).pEmpty ≤ 1)
    ∧ (0 ≤ 1 - ((tiltHome (driveProbs sig offT defT nets) hfa).p3O
          + (tiltHome (driveProbs sig offT defT nets) hfa).pTD
          + (tiltHome (driveProbs sig offT defT nets) hfa).pFG)
      ∧ 0 ≤ (tiltHome (driveProbs sig offT defT nets) hfa).p3O
          + (tiltHome (driveProbs sig offT defT nets) hfa).pTD
          + (tiltHome (driveProbs sig offT defT nets) hfa).pFG
          + (1 - ((tiltHome (driveProbs sig offT defT nets) hfa).p3O
              + (tiltHome (driveProbs sig offT defT nets) hfa).pTD
              + (tiltHome (driveProbs sig offT defT nets) hfa).pFG))
      ∧ (tiltHome (driveProbs sig offT defT nets) hfa).p3O
          + (tiltHome (driveProbs sig offT defT nets) hfa).pTD
          + (tiltHome (driveProbs sig offT defT nets) hfa).pFG
          + (1 - ((tiltHome (driveProbs sig offT defT nets) hfa).p3O
              + (tiltHome (driveProbs sig offT defT nets) hfa).pTD
              + (tiltHome (driveProbs sig offT defT nets) hfa).pFG)) ≤ 1)
    ∧ (0 ≤ 1 - ((adjAwayOf (driveProbs sig offT defT nets)).p3O
          + (adjAwayOf (driveProbs sig offT defT nets)).pTD
          + (adjAwayOf (driveProbs sig offT defT nets)).pFG)
      ∧ (adjAwayOf (driveProbs sig offT defT nets)).p3O
          + (adjAwayOf (driveProbs sig offT defT nets)).pTD
          + (adjAwayOf (driveProbs sig offT defT nets)).pFG
          + (1 - ((adjAwayOf (driveProbs sig offT defT nets)).p3O
              + (adjAwayOf (driveProbs sig offT defT nets)).pTD
              + (adjAwayOf (driveProbs sig offT defT nets)).pFG)) ≤ 1) := by
  obtain ⟨x, y, ⟨hx0, hx1⟩, ⟨hy0, hy1⟩, hEq⟩ := driveProbs_eq sig offT defT nets
  rw [hEq]
  have hS := sum3_bounds hx0 hx1 hy0 hy1
  have hC : 0 ≤ (1 - x) * (1 - y) * (32/100 : ℚ) :=
    mul_nonneg (mul_nonneg (by linarith) (by linarith)) (by norm_num)
  have hTD : 0 ≤ (1 - x) * y := mul_nonneg (by linarith) hy0
  refine ⟨⟨le_max_left _ _, ?_, ?_⟩, ?_, ?_⟩
  · dsimp only
    rw [max_eq_right (by linarith [hS.2])]
    linarith
  · dsimp only
    rw [max_eq_right (by linarith [hS.2])]
    linarith
  · dsimp only [tiltHome]
    have hR := renorm_sum_bounds
      (clamp01_nonneg (x * (1 - 1/100 * max 0 hfa)))
      (clamp01_nonneg ((1 - x) * y * (1 + 2/100 * max 0 hfa))) hC
    refine ⟨by linarith [hR.2], by linarith, by linarith⟩
  · dsimp only [adjAwayOf]
    have hR := renorm_sum_bounds hx0 hTD hC
    refine ⟨by linarith [hR.2], by linarith⟩

/-- The home tilt coefficients use `max(0, hfa)`, so a non-positive `hfa`
produces exactly the `hfa = 0` tilt. -/
theorem tiltHome_of_nonpos (base : DriveProbs) {hfa : ℚ} (h : hfa ≤ 0) :
    tiltHome base hfa = tiltHome base 0 := by
  have h1 : max (0:ℚ) hfa = 0 := max_eq_left h
  simp only [tiltHome, h1, max_self]

/-- C10: a non-positive home-field-advantage value has no effect in the
discrete variant: for every `hfa ≤ 0`, every matchup, every sigmoid value
and every fixed random stream, `simulateOne` yields exactly the scores and
adjusted per-drive probabilities of `hfa = 0` (the tilt coefficients use
`max(0, hfa)`), and the `run` call site's HFA argument
`Math.max(0, hfaPoints || 0)` evaluates to 0 as well. -/
theorem negative_hfa_no_effect (sig : ℚ → ℚ) (home away : TeamRec)
    (netsHome netsAway : DNets) (gameDrives posShare : ℚ) (rand : ℕ → ℚ)
    (hfa : ℚ) (h : hfa ≤ 0) :
    simulateOne sig home away netsHome netsAway gameDrives posShare hfa rand
      = simulateOne sig home away netsHome netsAway gameDrives posShare 0 rand
    ∧ ddsEffHfa hfa = 0 := by
  constructor
  · simp only [simulateOne, tiltHome_of_nonpos _ h]
  · unfold ddsEffHfa orZero
    split_ifs with h0
    · simp
    · exact max_eq_left h

/-- Witness for C10: HFA −2 between two league-average teams, constant
sigmoid value 1/2 and constant random stream 1/2, 24 drives split evenly —
the simulation output equals the HFA-0 output and the call-site HFA is 0. -/
theorem negative_hfa_no_effect_witness :
    simulateOne (fun _ => 1/2) avgTeam avgTeam zeroDNets zeroDNets 24 (1/2) (-2)
        (fun _ => 1/2)
      = simulateOne (fun _ => 1/2) avgTeam avgTeam zeroDNets zeroDNets 24 (1/2) 0
        (fun _ => 1/2)
    ∧ ddsEffHfa (-2) = 0 :=
  negative_hfa_no_effect (fun _ => 1/2) avgTeam avgTeam zeroDNets zeroDNets 24 (1/2)
    (fun _ => 1/2) (-2) (by norm_num)

/-- A JavaScript IEEE-754 double restricted to the values the z-score code
can encounter: an exact finite rational, NaN, or a signed infinity.
(Rationals have no signed zero; none of the modelled computations can
distinguish `-0` from `0`.) -/
inductive JsNum where
  | fin (q : ℚ)
  | nan
  | posInf
  | negInf
deriving DecidableEq

/-- JavaScript `isFinite`. -/
def JsNum.isFinite : JsNum → Bool
  | .fin _ => true
  | _ => false

/-- The rational payload of a finite JavaScript number (0 otherwise; only
ever applied after an `isFinite` guard). -/
def JsNum.toQ : JsNum → ℚ
  | .fin q => q
  | _ => 0

/-- IEEE-754 subtraction on the modelled values. -/
def JsNum.sub : JsNum → JsNum → JsNum
  | .nan, _ => .nan
  | _, .nan => .nan
  | .fin a, .fin b => .fin (a - b)
  | .fin _, .posInf => .negInf
  | .fin _, .negInf => .posInf
  | .posInf, .posInf => .nan
  | .posInf, _ => .posInf
  | .negInf, .negInf => .nan
  | .negInf, _ => .negInf

/-- IEEE-754 division on the modelled values (zero is unsigned: `a/0` for
`a > 0` gives `+∞`, as JavaScript's `a/+0` does). -/
def JsNum.div : JsNum → JsNum → JsNum
  | .nan, _ => .nan
  | _, .nan => .nan
  | .fin a, .fin b =>
      if b = 0 then (if a = 0 then .nan else if 0 < a then .posInf else .negInf)
      else .fin (a / b)
  | .fin _, _ => .fin 0
  | .posInf, .posInf => .nan
  | .posInf, .negInf => .nan
  | .posInf, .fin b => if 0 ≤ b then .posInf else .negInf
  | .negInf, .posInf => .nan
  | .negInf, .negInf => .nan
  | .negInf, .fin b => if 0 ≤ b then .negInf else .posInf

/-- Embeds the guarded z-score shared by the robust variants — `z` in the
Gaussian v3 file (part_001 line 216) and DDSmontecarlo_w8_robust.js
(line 109), and `zScore` in MonteCarloSimulator_rewrite_FIXED_v2.js
(lines 95-99):
`(v, m, s) => (!isFinite(s) || s === 0 || v === undefined || v === null) ? 0 : (v - m) / s`.
A missing metric value (`undefined`/`null`) is `none`. -/
def zGuarded (v : Option ℚ) (m : ℚ) (s : JsNum) : ℚ :=
  if s.isFinite = false ∨ s = JsNum.fin 0 ∨ v = none then 0
  else (v.getD 0 - m) / s.toQ

/-- Embeds `zScore` from MonteCarloSimulator_calibrated_v4_DEBUG.js
(lines 392-395): `if (sd === 0) return 0; return (value - mean) / sd;` —
note the absence of an `isFinite` guard on `sd`. -/
def zScoreV4 (value mean sd : JsNum) : JsNum :=
  if sd = JsNum.fin 0 then JsNum.fin 0 else (value.sub mean).div sd

/-- A net signal as formed in `computeNetFeatures`/`buildNets`: the guarded
z of the offensive metric minus the guarded z of the opponent's allowed
metric, both standardized against the same league `(mean, sd)` pair. -/
def netSignal (vo vd : Option ℚ) (m : ℚ) (s : JsNum) : ℚ :=
  zGuarded vo m s - zGuarded vd m s

/-- C3 (amended): in the robust variants (the guarded `z`/`zScore`), a zero
or non-finite league SD makes the z-score exactly 0 for every metric value,
hence every net signal formed from it is exactly 0 and standardization
returns a plain (finite) rational in every case.  The calibrated-v4
`zScore` guards only `sd === 0`: it also returns 0 for `sd = ±∞` (by IEEE
division), but a NaN `sd` propagates NaN (see the counterexample). -/
theorem zscore_degenerate_sd (v vo vd : Option ℚ) (m : ℚ) (s : JsNum)
    (h : s.isFinite = false ∨ s = JsNum.fin 0) :
    zGuarded v m s = 0
    ∧ netSignal vo vd m s = 0
    ∧ (∀ value mean : JsNum, zScoreV4 value mean (JsNum.fin 0) = JsNum.fin 0)
    ∧ (∀ a b : ℚ, zScoreV4 (JsNum.fin a) (JsNum.fin b) JsNum.posInf = JsNum.fin 0
        ∧ zScoreV4 (JsNum.fin a) (JsNum.fin b) JsNum.negInf = JsNum.fin 0) := by
  have hz : ∀ w : Option ℚ, zGuarded w m s = 0 := by
    intro w
    unfold zGuarded
    rcases h with hf | h0
    · rw [if_pos (Or.inl hf)]
    · rw [if_pos (Or.inr (Or.inl h0))]
  refine ⟨hz v, ?_, ?_, ?_⟩
  · unfold netSignal
    rw [hz vo, hz vd, sub_zero]
  · intro value mean
    simp [zScoreV4]
  · intro a b
    constructor <;> rfl

/-- Witness for C3: a NaN SD through the guarded z gives exactly 0, and the
net signal against a zero-SD baseline is exactly 0. -/
theorem zscore_degenerate_sd_witness :
    zGuarded (some 5) 2 JsNum.nan = 0
    ∧ netSignal (some 5) (some 3) 2 (JsNum.fin 0) = 0 :=
  ⟨(zscore_degenerate_sd (some 5) (some 5) (some 3) 2 JsNum.nan (Or.inl rfl)).1,
   (zscore_degenerate_sd (some 5) (some 5) (some 3) 2 (JsNum.fin 0) (Or.inr rfl)).2.1⟩

/-- Counterexample to C3 as stated: the calibrated-v4 `zScore` does not
return 0 for every non-finite SD — with `sd = NaN` (a non-finite baseline
SD) it returns NaN, which is not 0. -/
theorem zscore_v4_nan_sd_cex :
    zScoreV4 (JsNum.fin 1) (JsNum.fin 0) JsNum.nan = JsNum.nan
    ∧ JsNum.nan ≠ JsNum.fin 0 := by
  exact ⟨rfl, by decide⟩

/-- Embeds the JavaScript `[...arr].sort((a,b) => a-b)` ascending sort used
by all aggregators (insertion sort produces the same ascending arrangement). -/
def jsSort (arr : List ℚ) : List ℚ := arr.insertionSort (· ≤ ·)

/-- Embeds `mean` from the `run` aggregator of DDSmontecarlo_w8_robust.js
(line 282): `arr.reduce((a,b) => a+b, 0) / arr.length`. -/
def meanQ (arr : List ℚ) : ℚ := arr.foldl (· + ·) 0 / arr.length

/-- Embeds `median` from DDSmontecarlo_w8_robust.js line 283 (identical in
FIXED_v2 lines 373-377): sort ascending, take the middle element for odd
length and the midpoint average of the two central elements for even
length. -/
def medianQ (arr : List ℚ) : ℚ :=
  let s := jsSort arr
  let m := s.length / 2
  if s.length % 2 = 1 then s.getD m 0 else (s.getD (m - 1) 0 + s.getD m 0) / 2

/-- Embeds `pct` from DDSmontecarlo_w8_robust.js (line 284): index
`Math.floor((n-1)*p)`, clamped into `[0, n-1]` as
`s[Math.max(0, Math.min(s.length-1, i))]`. -/
def ddsPct (arr : List ℚ) (p : ℚ) : ℚ :=
  let s := jsSort arr
  let i : ℤ := ⌊((s.length : ℚ) - 1) * p⌋
  s.getD (max 0 (min ((s.length : ℤ) - 1) i)).toNat 0

/-- Embeds `percentile` from MonteCarloSimulator_rewrite_FIXED_v2.js
(lines 378-382): index `Math.floor(sorted.length * p)` — n·p, NOT (n-1)·p —
clamped as `sorted[Math.min(Math.max(idx, 0), sorted.length - 1)]`. -/
def percentileFx (arr : List ℚ) (p : ℚ) : ℚ :=
  let s := jsSort arr
  let idx : ℤ := ⌊(s.length : ℚ) * p⌋
  s.getD (min (max idx 0) ((s.length : ℤ) - 1)).toNat 0

/-- C6 (amended): on the fixed trial sequence `[38, 41, 45, 50, 52]` the
median is 45 and the mean is 45.2; for every even-length non-empty sequence
the median is the midpoint average of the two central sorted elements; and
the DDS percentile function follows the pinned `floor((n-1)*p)` sorted-index
convention for `p ∈ [0,1]`.  The FIXED_v2 `percentile`, however, follows the
`floor(n*p)` convention instead (see the counterexample). -/
theorem aggregation_median_mean_percentile :
    medianQ [38, 41, 45, 50, 52] = 45
    ∧ meanQ [38, 41, 45, 50, 52] = 226/5
    ∧ (∀ arr : List ℚ, arr ≠ [] → arr.length % 2 = 0 →
        medianQ arr = ((jsSort arr).getD (arr.length / 2 - 1) 0
          + (jsSort arr).getD (arr.length / 2) 0) / 2)
    ∧ (∀ (arr : List ℚ) (p : ℚ), arr ≠ [] → 0 ≤ p → p ≤ 1 →
        ddsPct arr p = (jsSort arr).getD (⌊((arr.length : ℚ) - 1) * p⌋).toNat 0)
    ∧ (∀ (arr : List ℚ) (p : ℚ), arr ≠ [] → 0 ≤ p → p < 1 →
        percentileFx arr p = (jsSort arr).getD (⌊(arr.length : ℚ) * p⌋).toNat 0) := by
  refine ⟨?_, ?_, ?_, ?_, ?_⟩
  · norm_num [medianQ, jsSort, List.insertionSort, List.orderedInsert]
  · norm_num [meanQ]
  · intro arr hne hlen
    simp only [medianQ, jsSort, List.length_insertionSort, hlen]
    norm_num
  · intro arr p hne hp0 hp1
    have hn : 1 ≤ arr.length := List.length_pos.mpr hne
    have hnq : (1:ℚ) ≤ (arr.length : ℚ) := by exact_mod_cast hn
    have hi0 : 0 ≤ ⌊((arr.length : ℚ) - 1) * p⌋ :=
      Int.floor_nonneg.mpr (mul_nonneg (by linarith) hp0)
    have hi1 : ⌊((arr.length : ℚ) - 1) * p⌋ ≤ (arr.length : ℤ) - 1 := by
      have : ((arr.length : ℚ) - 1) * p ≤ ((arr.length : ℤ) - 1 : ℤ) := by
        push_cast
        nlinarith
      calc ⌊((arr.length : ℚ) - 1) * p⌋ ≤ ⌊(((arr.length : ℤ) - 1 : ℤ) : ℚ)⌋ :=
            Int.floor_le_floor (by push_cast; nlinarith)
        _ = (arr.length : ℤ) - 1 := Int.floor_intCast _
    simp only [ddsPct, jsSort, List.length_insertionSort]
    rw [min_eq_right hi1, max_eq_right hi0]
  · intro arr p hne hp0 hp1
    have hn : 1 ≤ arr.length := List.length_pos.mpr hne
    have hnq : (1:ℚ) ≤ (arr.length : ℚ) := by exact_mod_cast hn
    have hi0 : 0 ≤ ⌊(arr.length : ℚ) * p⌋ :=
      Int.floor_nonneg.mpr (mul_nonneg (by linarith) hp0)
    have hi1 : ⌊(arr.length : ℚ) * p⌋ ≤ (arr.length : ℤ) - 1 := by
      have hlt : ⌊(arr.length : ℚ) * p⌋ < (arr.length : ℤ) := by
        rw [Int.floor_lt]
        push_cast
        nlinarith
      omega
    simp only [percentileFx, jsSort, List.length_insertionSort]
    rw [max_eq_left hi0, min_eq_left hi1]

/-- Counterexample to C6 as stated: the FIXED_v2 `percentile` does not
follow the `floor((n-1)*p)` convention: on `[1,2,3,4]` at `p = 0.5` it
returns 3 (index `floor(4*0.5) = 2`), while the pinned convention indexes
`floor(3*0.5) = 1`, i.e. the element 2. -/
theorem percentile_convention_cex :
    percentileFx [1, 2, 3, 4] (1/2) = 3
    ∧ ddsPct [1, 2, 3, 4] (1/2) = 2
    ∧ (3:ℚ) ≠ 2 := by
  refine ⟨?_, ?_, by norm_num⟩
  · norm_num [percentileFx, jsSort, List.insertionSort, List.orderedInsert] <;> rfl
  · norm_num [ddsPct, jsSort, List.insertionSort, List.orderedInsert]

/-- Embeds the over-probability of the `run` aggregator in
DDSmontecarlo_w8_robust.js (line 294): `totals.filter(x => x > mktTot).length / N`. -/
def pOverOf (totals : List ℚ) (mktTot : ℚ) (N : ℕ) : ℚ :=
  ((totals.filter (fun x => mktTot < x)).length : ℚ) / N

/-- Embeds the home-cover probability of the `run` aggregator in
DDSmontecarlo_w8_robust.js (line 296):
`spreads.filter(s => s + (-mktSpr) > 0).length / N`. -/
def pHomeCoverOf (spreads : List ℚ) (mktSpr : ℚ) (N : ℕ) : ℚ :=
  ((spreads.filter (fun s => 0 < s + -mktSpr)).length : ℚ) / N

/-- C7: market probabilities are exact counting ratios.  `P(over)` is the
count of trial totals strictly above the market line divided by N — so
10,000 totals of which exactly 6,000 exceed 47.5 give exactly 0.60 — and
`P(home covers)` is the count of margins with `margin + (-spread) > 0`
divided by N, a negative spread `-X` (home favored by X) becoming the
threshold `+X`. -/
theorem market_probabilities_counting :
    (∀ (totals : List ℚ) (line : ℚ) (N : ℕ),
      pOverOf totals line N = (totals.countP (fun x => decide (line < x)) : ℚ) / N)
    ∧ pOverOf (List.replicate 6000 (50:ℚ) ++ List.replicate 4000 40) (95/2) 10000 = 3/5
    ∧ (∀ (spreads : List ℚ) (spr : ℚ) (N : ℕ),
      pHomeCoverOf spreads spr N
        = (spreads.countP (fun s => decide (0 < s + -spr)) : ℚ) / N)
    ∧ (∀ (spreads : List ℚ) (X : ℚ) (N : ℕ),
      pHomeCoverOf spreads (-X) N
        = (spreads.countP (fun s => decide (0 < s + X)) : ℚ) / N) := by
  refine ⟨?_, ?_, ?_, ?_⟩
  · intro totals line N
    rw [pOverOf, List.countP_eq_length_filter]
  · have h1 : (List.replicate 6000 (50:ℚ)).filter (fun x => decide ((95:ℚ)/2 < x))
        = List.replicate 6000 50 := by
      rw [List.filter_eq_self]
      intro a ha
      rw [List.eq_of_mem_replicate ha]
      norm_num
    have h2 : (List.replicate 4000 (40:ℚ)).filter (fun x => decide ((95:ℚ)/2 < x))
        = [] := by
      rw [List.filter_eq_nil_iff]
      intro a ha
      rw [List.eq_of_mem_replicate ha]
      norm_num
    rw [pOverOf, List.filter_append, h1, h2]
    norm_num
  · intro spreads spr N
    rw [pHomeCoverOf, List.countP_eq_length_filter]
  · intro spreads X N
    rw [pHomeCoverOf, List.countP_eq_length_filter]
    simp only [neg_neg]

/-- JavaScript truthiness on a number: 0 and NaN are falsy. -/
def jsFalsy : JsNum → Bool
  | .fin q => q = 0
  | .nan => true
  | _ => false

/-- JavaScript `a || b` on numbers. -/
def jsOr (a b : JsNum) : JsNum := if jsFalsy a then b else a

/-- Truncation toward zero, the numeric effect of JavaScript
`parseInt(String(x))` on a finite number. -/
def jsTrunc (q : ℚ) : ℤ := if 0 ≤ q then ⌊q⌋ else -⌊-q⌋

/-- JavaScript `parseInt(String(x))` for a number `x`: truncation toward
zero for (moderate) finite values; `NaN` for `NaN` and for `±Infinity`
(whose strings do not begin with digits). -/
def parseIntJs : JsNum → JsNum
  | .fin q => .fin ((jsTrunc q : ℤ) : ℚ)
  | _ => .nan

/-- JavaScript `Math.max` on two numbers: NaN-contaminating, otherwise the
usual maximum. -/
def jsMaxNum : JsNum → JsNum → JsNum
  | .nan, _ => .nan
  | _, .nan => .nan
  | .fin a, .fin b => .fin (max a b)
  | .posInf, _ => .posInf
  | _, .posInf => .posInf
  | .negInf, b => b
  | .fin a, .negInf => .fin a

/-- Embeds the effective trial count of `run` in DDSmontecarlo_w8_robust.js
(line 268): `N = Math.max(1, parseInt(numSim || 10000))`. -/
def ddsEffectiveN (numSim : JsNum) : JsNum :=
  jsMaxNum (JsNum.fin 1) (parseIntJs (jsOr numSim (JsNum.fin 10000)))

/-- Iteration count of the JavaScript loop `for (let i = 0; i < N; i++)`
for the values `N` reachable here (an integer, or NaN which runs zero
iterations; `±Infinity` is unreachable from `ddsEffectiveN`). -/
def jsLoopCount : JsNum → ℕ
  | .fin q => (jsTrunc q).toNat
  | _ => 0

/-- Embeds the totals sequence built by the trial loop of `run` in
DDSmontecarlo_w8_robust.js (lines 273-280): trial `i` contributes
`totals[i] = out.hs + out.as`, where `trial` abstracts the per-trial
`simulateOne` score pair. -/
def ddsRunTotals (numSim : JsNum) (trial : ℕ → ℤ × ℤ) : List ℤ :=
  (List.range (jsLoopCount (ddsEffectiveN numSim))).map
    (fun i => (trial i).1 + (trial i).2)

/-- Embeds the spreads sequence of the same loop:
`spreads[i] = out.hs - out.as`. -/
def ddsRunSpreads (numSim : JsNum) (trial : ℕ → ℤ × ℤ) : List ℤ :=
  (List.range (jsLoopCount (ddsEffectiveN numSim))).map
    (fun i => (trial i).1 - (trial i).2)

theorem ddsEffectiveN_fin_zero : ddsEffectiveN (JsNum.fin 0) = JsNum.fin 10000 := by
  have ht : jsTrunc 10000 = 10000 := by
    unfold jsTrunc
    rw [if_pos (by norm_num)]
    norm_num [Int.floor_eq_iff]
  simp [ddsEffectiveN, jsOr, jsFalsy, parseIntJs, jsMaxNum, ht]

/-- C8 (amended): the DDS sampler never fails fast on a bad trial count —
it silently substitutes: a trial-count input of 0 or NaN is replaced by the
default 10000, a negative input is clamped up to 1, and for every finite
input the run executes with an effective trial count of at least 1. -/
theorem trial_count_silent_default :
    ddsEffectiveN (JsNum.fin 0) = JsNum.fin 10000
    ∧ ddsEffectiveN JsNum.nan = JsNum.fin 10000
    ∧ (∀ q : ℚ, q < 0 → ddsEffectiveN (JsNum.fin q) = JsNum.fin 1)
    ∧ (∀ q : ℚ, ∃ n : ℤ, 1 ≤ n ∧ ddsEffectiveN (JsNum.fin q) = JsNum.fin (n : ℚ)) := by
  have ht : jsTrunc 10000 = 10000 := by
    unfold jsTrunc
    rw [if_pos (by norm_num)]
    norm_num [Int.floor_eq_iff]
  refine ⟨ddsEffectiveN_fin_zero, ?_, ?_, ?_⟩
  · simp [ddsEffectiveN, jsOr, jsFalsy, parseIntJs, jsMaxNum, ht]
  · intro q hq
    have hne : ¬ q = 0 := ne_of_lt hq
    have hnn : ¬ 0 ≤ q := not_le.mpr hq
    have hfl : (0:ℚ) ≤ (⌊-q⌋ : ℚ) := by
      exact_mod_cast Int.floor_nonneg.mpr (by linarith : (0:ℚ) ≤ -q)
    have htq : jsTrunc q = -⌊-q⌋ := by
      unfold jsTrunc
      rw [if_neg hnn]
    simp only [ddsEffectiveN, jsOr, jsFalsy, parseIntJs, jsMaxNum, htq]
    rw [if_neg (by simp [hne])]
    simp only [jsMaxNum, JsNum.fin.injEq]
    rw [max_eq_left]
    rw [htq]
    push_cast
    linarith
  · intro q
    by_cases h0 : q = 0
    · subst h0
      exact ⟨10000, by norm_num, by rw [ddsEffectiveN_fin_zero]; norm_num⟩
    · refine ⟨max 1 (jsTrunc q), le_max_left _ _, ?_⟩
      simp only [ddsEffectiveN, jsOr, jsFalsy, parseIntJs, jsMaxNum]
      rw [if_neg (by simp [h0])]
      simp only [jsMaxNum, JsNum.fin.injEq]
      push_cast
      rfl

/-- Witness for C8: a negative trial count (−5) is silently clamped to an
effective count of 1 — no error is raised. -/
theorem trial_count_silent_default_witness :
    ddsEffectiveN (JsNum.fin (-5)) = JsNum.fin 1 :=
  trial_count_silent_default.2.2.1 (-5) (by norm_num)

/-- Counterexample to C8 as stated: with the non-positive trial-count input
0, the DDS sampler does not fail and does not return no result — it
silently substitutes the default, runs 10000 trials, and produces a
10000-element totals sequence. -/
theorem trial_count_no_failfast_cex :
    ddsEffectiveN (JsNum.fin 0) = JsNum.fin 10000
    ∧ (ddsRunTotals (JsNum.fin 0) (fun _ => (0, 0))).length = 10000 := by
  have ht : jsTrunc 10000 = 10000 := by
    unfold jsTrunc
    rw [if_pos (by norm_num)]
    norm_num [Int.floor_eq_iff]
  refine ⟨ddsEffectiveN_fin_zero, ?_⟩
  rw [ddsRunTotals, ddsEffectiveN_fin_zero]
  simp only [List.length_map, List.length_range, jsLoopCount, ht]
  rfl

theorem getD_map_range {α : Type} (f : ℕ → α) (d : α) {i N : ℕ} (h : i < N) :
    ((List.range N).map f).getD i d = f i := by
  rw [List.getD_eq_getElem?_getD, List.getElem?_map, List.getElem?_range h]
  rfl

/-- Embeds the per-trial home scores of the FIXED_v2 trial loop
(lines 354-366): `max(0, round(mean + z*sd))`, the Box-Muller normal of
trial `i` for the home side abstracted as `zs (2*i)`. -/
def fxHomeScores (N : ℕ) (pH sdH : ℚ) (zs : ℕ → ℚ) : List ℤ :=
  (List.range N).map (fun i => max 0 (jsRound (pH + zs (2*i) * sdH)))

/-- The per-trial away scores of the FIXED_v2 loop, from the second
Box-Muller normal `zs (2*i+1)` of each trial. -/
def fxAwayScores (N : ℕ) (pA sdA : ℚ) (zs : ℕ → ℚ) : List ℤ :=
  (List.range N).map (fun i => max 0 (jsRound (pA + zs (2*i+1) * sdA)))

/-- The totals sequence of the FIXED_v2 loop (line 368):
`totals.push(homeScore + awayScore)`. -/
def fxTotals (N : ℕ) (pH sdH pA sdA : ℚ) (zs : ℕ → ℚ) : List ℤ :=
  (List.range N).map (fun i =>
    max 0 (jsRound (pH + zs (2*i) * sdH)) + max 0 (jsRound (pA + zs (2*i+1) * sdA)))

/-- The spreads sequence of the FIXED_v2 loop (line 369):
`spreads.push(homeScore - awayScore)`. -/
def fxSpreads (N : ℕ) (pH sdH pA sdA : ℚ) (zs : ℕ → ℚ) : List ℤ :=
  (List.range N).map (fun i =>
    max 0 (jsRound (pH + zs (2*i) * sdH)) - max 0 (jsRound (pA + zs (2*i+1) * sdA)))

/-- Embeds `sigmaMargin` from MonteCarloSimulator_calibrated_v4_DEBUG.js
(line 1043): `max(9.5, min(13.5, 8.0 + 0.18*(e - 20)))`. -/
def sigmaMargin (e : ℚ) : ℚ := max (19/2) (min (27/2) (8 + (18/100) * (e - 20)))

/-- Embeds `sigmaTotal` from MonteCarloSimulator_calibrated_v4_DEBUG.js
(line 1044): `max(10.5, min(15.5, 8.5 + 0.25*(e - 20)))`. -/
def sigmaTotal (e : ℚ) : ℚ := max (21/2) (min (31/2) (17/2 + (25/100) * (e - 20)))

/-- One recorded trial of the calibrated-v4 sampler. -/
structure V4Trial where
  homeScore : ℤ
  awayScore : ℤ
  total : ℤ
  margin : ℤ

/-- Embeds one iteration of the trial loop of `simulateGame` in
MonteCarloSimulator_calibrated_v4_DEBUG.js (lines 1046-1081).  The four
Box-Muller normals of the trial are the parameters `z1 z2 z3 z4`, and
`sq` stands for the transcendental `Math.sqrt(1 - rho*rho)` (at `rho = 0`
it is exactly 1).  The recorded score pair comes from the margin stream;
the recorded total comes from a separate 0.7/0.3 blend with the second
normal pair. -/
def v4Trial (hEm aEm hEt aEt rho sq z1 z2 z3 z4 : ℚ) : V4Trial :=
  let homeRandom := z1
  let awayRandom := rho * z1 + sq * z2
  let homeScoreMargin := max 0 (hEm + homeRandom * sigmaMargin hEm)
  let awayScoreMargin := max 0 (aEm + awayRandom * sigmaMargin aEm)
  let homeRandomTotal := (7/10) * z1 + (3/10) * z3
  let awayRandomTotal := (7/10) * (rho * z1 + sq * z2) + (3/10) * z4
  let homeScoreTotal := max 0 (hEt + homeRandomTotal * sigmaTotal hEt)
  let awayScoreTotal := max 0 (aEt + awayRandomTotal * sigmaTotal aEt)
  let homeScoreRounded := jsRound homeScoreMargin
  let awayScoreRounded := jsRound awayScoreMargin
  { homeScore := homeScoreRounded
  , awayScore := awayScoreRounded
  , total := jsRound (homeScoreTotal + awayScoreTotal)
  , margin := homeScoreRounded - awayScoreRounded }

/-- C9 (amended): in the DDS and FIXED_v2 samplers every recorded trial
satisfies `total_i = home_i + away_i` and `margin_i = home_i - away_i` with
the score pair of that same trial, in trial order; in the calibrated-v4
sampler the margins likewise satisfy `margin = homeScore - awayScore`, but
its totals are drawn from a separate blended random stream and need not
equal `homeScore + awayScore` (see the counterexample). -/
theorem trial_totals_margins_identities :
    (∀ (ns : JsNum) (trial : ℕ → ℤ × ℤ) (i : ℕ),
      i < jsLoopCount (ddsEffectiveN ns) →
      (ddsRunTotals ns trial).getD i 0 = (trial i).1 + (trial i).2
      ∧ (ddsRunSpreads ns trial).getD i 0 = (trial i).1 - (trial i).2)
    ∧ (∀ (N : ℕ) (pH sdH pA sdA : ℚ) (zs : ℕ → ℚ) (i : ℕ), i < N →
      (fxTotals N pH sdH pA sdA zs).getD i 0
        = (fxHomeScores N pH sdH zs).getD i 0 + (fxAwayScores N pA sdA zs).getD i 0
      ∧ (fxSpreads N pH sdH pA sdA zs).getD i 0
        = (fxHomeScores N pH sdH zs).getD i 0 - (fxAwayScores N pA sdA zs).getD i 0)
    ∧ (∀ hEm aEm hEt aEt rho sq z1 z2 z3 z4 : ℚ,
      (v4Trial hEm aEm hEt aEt rho sq z1 z2 z3 z4).margin
        = (v4Trial hEm aEm hEt aEt rho sq z1 z2 z3 z4).homeScore
          - (v4Trial hEm aEm hEt aEt rho sq z1 z2 z3 z4).awayScore) := by
  refine ⟨?_, ?_, ?_⟩
  · intro ns trial i h
    exact ⟨getD_map_range _ _ h, getD_map_range _ _ h⟩
  · intro N pH sdH pA sdA zs i h
    rw [fxTotals, fxSpreads, fxHomeScores, fxAwayScores,
      getD_map_range _ _ h, getD_map_range _ _ h, getD_map_range _ _ h,
      getD_map_range _ _ h]
    exact ⟨rfl, rfl⟩
  · intro hEm aEm hEt aEt rho sq z1 z2 z3 z4
    rfl

/-- Witness for C9: one FIXED_v2 trial (N = 1, zero normal draws) has
`total = home + away` and `spread = home - away`. -/
theorem trial_totals_margins_identities_witness :
    (fxTotals 1 20 9 20 9 (fun _ => 0)).getD 0 0
      = (fxHomeScores 1 20 9 (fun _ => 0)).getD 0 0
        + (fxAwayScores 1 20 9 (fun _ => 0)).getD 0 0
    ∧ (fxSpreads 1 20 9 20 9 (fun _ => 0)).getD 0 0
      = (fxHomeScores 1 20 9 (fun _ => 0)).getD 0 0
        - (fxAwayScores 1 20 9 (fun _ => 0)).getD 0 0 :=
  trial_totals_margins_identities.2.1 1 20 9 20 9 (fun _ => 0) 0 (by norm_num)

/-- Counterexample to C9 as stated: a concrete calibrated-v4 trial (all
expected points 20, `rho = 0`, normals `z1 = z2 = z4 = 0`, `z3 = 1`)
records total 43 but home + away = 20 + 20 = 40: the recorded total is not
the sum of the recorded score pair of that trial. -/
theorem v4_total_not_sum_cex :
    (v4Trial 20 20 20 20 0 1 0 0 1 0).total = 43
    ∧ (v4Trial 20 20 20 20 0 1 0 0 1 0).homeScore
      + (v4Trial 20 20 20 20 0 1 0 0 1 0).awayScore = 40
    ∧ (43:ℤ) ≠ 40 := by
  refine ⟨?_, ?_, by norm_num⟩
  · norm_num [v4Trial, sigmaMargin, sigmaTotal, jsRound, Int.floor_eq_iff]
  · norm_num [v4Trial, sigmaMargin, sigmaTotal, jsRound, Int.floor_eq_iff]

/-- Witness for C6: on the even-length sequence `[1, 2, 4, 8]` the median
is the midpoint average of the two central sorted elements, and the DDS
percentile at `p = 1/2` indexes `floor((n-1)*p)`. -/
theorem aggregation_median_mean_percentile_witness :
    medianQ [1, 2, 4, 8]
      = ((jsSort [1, 2, 4, 8]).getD (([1, 2, 4, 8] : List ℚ).length / 2 - 1) 0
        + (jsSort [1, 2, 4, 8]).getD (([1, 2, 4, 8] : List ℚ).length / 2) 0) / 2
    ∧ ddsPct [1, 2, 4, 8] (1/2)
      = (jsSort [1, 2, 4, 8]).getD
          (⌊((([1, 2, 4, 8] : List ℚ).length : ℚ) - 1) * (1/2)⌋).toNat 0 :=
  ⟨aggregation_median_mean_percentile.2.2.1 [1, 2, 4, 8] (by simp) (by simp),
   aggregation_median_mean_percentile.2.2.2.1 [1, 2, 4, 8] (1/2) (by simp)
     (by norm_num) (by norm_num)⟩
